import Mathlib

/-!
Shallow embedding of the report-generation script
`mne_bids_pipeline/scripts/report/_01_make_reports.py` of the
mne-bids-pipeline repository, together with proofs about the
decoding-statistics aggregation and report-assembly behaviour described
in the specification.

NumPy arrays loaded from the stored `.mat` decoding artifacts are
rectangular tensors; we embed them as total functions on `Fin`-indexed
coordinates (`Fin T → ℚ` for vectors, `Fin T → Fin T → ℚ` for square
time-generalization matrices), with rational numbers standing for the
floating-point scores.  Stateful report construction is embedded as
explicit document/state passing, and fallible artifact loading as
`Except`.
-/

namespace MakeReports

/-- A decoding contrast: a pair of condition names (`cond_1, cond_2 = contrast`). -/
abbrev Contrast := String × String

/-- One entry of the stored cluster-permutation results, as consumed by
`_plot_time_by_time_decoding_scores_gavg`: the cluster's time points
(`cluster['times']`) and its permutation p-value (`cluster['p_value']`). -/
structure PermCluster where
  times : List ℚ
  pValue : ℚ
deriving DecidableEq, Repr

/-- The clusters that survive the highlight loop of
`_plot_time_by_time_decoding_scores_gavg`: the code iterates over all
clusters and `continue`s (skips) whenever
`cluster_p >= cfg.cluster_permutation_p_threshold`; every remaining
cluster is drawn with `ax.fill_betweenx`. -/
def significantClusters (pThreshold : ℚ) (clusters : List PermCluster) :
    List PermCluster :=
  clusters.filter fun c => ! decide (pThreshold ≤ c.pValue)

/-- `np.diag` of a square matrix: the vector of entries `m[t, t]`. -/
def npDiag {T : ℕ} (m : Fin T → Fin T → ℚ) : Fin T → ℚ :=
  fun t => m t t

/-- Elementwise subtraction of two same-shape matrices
(`mean_scores - decoding_data['mean_se']`). -/
def matSub {T : ℕ} (a b : Fin T → Fin T → ℚ) : Fin T → Fin T → ℚ :=
  fun i j => a i j - b i j

/-- Elementwise addition of two same-shape matrices
(`mean_scores + decoding_data['mean_se']`). -/
def matAdd {T : ℕ} (a b : Fin T → Fin T → ℚ) : Fin T → Fin T → ℚ :=
  fun i j => a i j + b i j

/-- The fields of the stored grand-average time-by-time decoding artifact
(`decoding_data = loadmat(fname_decoding)`) that
`_plot_time_by_time_decoding_scores_gavg` reads, in the regime where
`decoding_time_generalization` is disabled, so that `mean`, `mean_se`,
`mean_ci_lower` and `mean_ci_upper` squeeze to one-dimensional arrays of
length `T`. -/
structure GavgVecData (T : ℕ) where
  times : Fin T → ℚ
  mean : Fin T → ℚ
  mean_se : Fin T → ℚ
  mean_ci_lower : Fin T → ℚ
  mean_ci_upper : Fin T → ℚ
  clusters : List PermCluster

/-- The same stored fields in the regime where
`decoding_time_generalization` is enabled, so that the score statistics
are square train-time × test-time matrices. -/
structure GavgMatData (T : ℕ) where
  times : Fin T → ℚ
  mean : Fin T → Fin T → ℚ
  mean_se : Fin T → Fin T → ℚ
  mean_ci_lower : Fin T → Fin T → ℚ
  mean_ci_upper : Fin T → Fin T → ℚ
  clusters : List PermCluster

/-- The artists drawn by `_plot_time_by_time_decoding_scores_gavg` on the
grand-average score figure: the highlighted significant clusters (and the
x-spans of their `ax.fill_betweenx` calls), the confidence-interval band
(`ax.fill_between` of `ci_lower`/`ci_upper`), the mean curve
(`ax.plot(times, mean_scores)`) and the two standard-error curves
(`ax.plot` of `se_lower` and `se_upper`). -/
structure GavgFigure (T : ℕ) where
  highlighted : List PermCluster
  highlightSpans : List (ℚ × ℚ)
  ciLower : Fin T → ℚ
  ciUpper : Fin T → ℚ
  meanCurve : Fin T → ℚ
  seLower : Fin T → ℚ
  seUpper : Fin T → ℚ

/-- Embeds `_plot_time_by_time_decoding_scores_gavg` when time
generalization is off: `se_lower = mean - mean_se`,
`se_upper = mean + mean_se`, the CI band is taken directly from the
stored `mean_ci_lower`/`mean_ci_upper`, and a cluster is shaded exactly
when the highlight loop does not skip it.  Each shaded span runs from
`cluster_times[0]` to `cluster_times[-1]`. -/
def plotGavgScoresVec {T : ℕ} (pThreshold : ℚ) (d : GavgVecData T) :
    GavgFigure T where
  highlighted := significantClusters pThreshold d.clusters
  highlightSpans :=
    (significantClusters pThreshold d.clusters).map fun c =>
      (c.times.headD 0, c.times.getLastD 0)
  ciLower := d.mean_ci_lower
  ciUpper := d.mean_ci_upper
  meanCurve := d.mean
  seLower := fun t => d.mean t - d.mean_se t
  seUpper := fun t => d.mean t + d.mean_se t

/-- Embeds `_plot_time_by_time_decoding_scores_gavg` when
`cfg.decoding_time_generalization` is on: the code first forms
`se_lower`/`se_upper` from the matrices and then replaces every curve by
its `np.diag` ("Only use the diagonal values"). -/
def plotGavgScoresMat {T : ℕ} (pThreshold : ℚ) (d : GavgMatData T) :
    GavgFigure T where
  highlighted := significantClusters pThreshold d.clusters
  highlightSpans :=
    (significantClusters pThreshold d.clusters).map fun c =>
      (c.times.headD 0, c.times.getLastD 0)
  ciLower := npDiag d.mean_ci_lower
  ciUpper := npDiag d.mean_ci_upper
  meanCurve := npDiag d.mean
  seLower := npDiag (matSub d.mean d.mean_se)
  seUpper := npDiag (matAdd d.mean d.mean_se)

/-- `np.mean(axis=0)` over the cross-validation-fold axis of a stacked
score array of shape folds × T × T. -/
def npMeanAxis0 {F T : ℕ} (s : Fin F → Fin T → Fin T → ℚ) :
    Fin T → Fin T → ℚ :=
  fun i j => (∑ f, s f i j) / (F : ℚ)

/-- Maximum of a list of rationals, folding from its head
(the semantics of `np.max` on a nonempty axis; `0` for the empty list,
which NumPy would reject). -/
def listMax : List ℚ → ℚ
  | [] => 0
  | x :: xs => xs.foldl max x

/-- Minimum of a list of rationals, folding from its head. -/
def listMin : List ℚ → ℚ
  | [] => 0
  | x :: xs => xs.foldl min x

/-- `np.max(axis=0)` over the fold axis. -/
def npMaxAxis0 {F T : ℕ} (s : Fin F → Fin T → Fin T → ℚ) :
    Fin T → Fin T → ℚ :=
  fun i j => listMax ((List.finRange F).map fun f => s f i j)

/-- `np.min(axis=0)` over the fold axis. -/
def npMinAxis0 {F T : ℕ} (s : Fin F → Fin T → Fin T → ℚ) :
    Fin T → Fin T → ℚ :=
  fun i j => listMin ((List.finRange F).map fun f => s f i j)

/-- Embeds `_plot_time_by_time_decoding_scores` in the regime where
`time_generalization` is `True`, so that `cross_val_scores` is a 3-D
array of shape folds × T × T: the code computes the elementwise mean,
max and min over the fold axis and then keeps only `np.diag` of each
("Only use the diagonal values (classifiers trained and tested on the
same time points)").  Returns the (mean, max, min) curves handed to
`ax.plot`/`ax.fill_between`. -/
def plotTimeByTimeScoresTimeGen {F T : ℕ}
    (cross_val_scores : Fin F → Fin T → Fin T → ℚ) :
    (Fin T → ℚ) × (Fin T → ℚ) × (Fin T → ℚ) :=
  (npDiag (npMeanAxis0 cross_val_scores),
   npDiag (npMaxAxis0 cross_val_scores),
   npDiag (npMinAxis0 cross_val_scores))

/-! ### Subject-level report assembly (`run_report` and its stages)

The document is embedded as the ordered list of section tags appended so
far; the individual MNE rendering calls inside a stage (external
collaborators per the spec) are abstracted into the stage's section tag,
while the control flow between stages — ordering, the coregistration
gate, error propagation, and the final save — follows the source. -/

/-- The section tags a subject-level report document can contain. -/
inductive SubjSection where
  | preprocessing
  | sensor
  | source
  | configFile
  | sysInfo
deriving DecidableEq, Repr

/-- Errors raised during report assembly: a required stored artifact is
absent or unreadable (`FileNotFoundError` from `read_raw_fif`/`loadmat`
and friends, the spec's `ArtifactMissing`). -/
inductive RunError where
  | artifactMissing
deriving DecidableEq, Repr

/-- The artifact-store facts a subject-level run consults: whether the
filtered raw recordings load, whether the epochs/evoked/decoding inputs
of the sensor stage are available, whether the subject decoding `.mat`
files are present, whether the coregistration (`trans`) file exists
(`fname_trans.fpath.exists()`), and whether the source-stage inputs
(BEM, noise covariance, …) are readable. -/
structure SubjectArtifacts where
  rawOk : Bool
  sensorOk : Bool
  sensorDecodingOk : Bool
  transPresent : Bool
  sourceOk : Bool

/-- The configuration fields consulted by the embedded control flow. -/
structure SubjectCfg where
  decode : Bool
  decodingContrasts : List Contrast

/-- `run_report_preprocessing`: loads the filtered raw runs (raising if
absent) and appends the preprocessing section. -/
def runReportPreprocessing (a : SubjectArtifacts) (doc : List SubjSection) :
    Except RunError (List SubjSection) :=
  if a.rawOk then .ok (doc ++ [SubjSection.preprocessing])
  else .error .artifactMissing

/-- `run_report_sensor`: renders epochs/evoked content, and when
`cfg.decode and cfg.decoding_contrasts` also loads the subject's
decoding `.mat` artifacts with `loadmat` (raising if absent — there is
no existence check), then appends the sensor section. -/
def runReportSensor (cfg : SubjectCfg) (a : SubjectArtifacts)
    (doc : List SubjSection) : Except RunError (List SubjSection) :=
  if a.sensorOk then
    if cfg.decode && !cfg.decodingContrasts.isEmpty then
      if a.sensorDecodingOk then .ok (doc ++ [SubjSection.sensor])
      else .error .artifactMissing
    else .ok (doc ++ [SubjSection.sensor])
  else .error .artifactMissing

/-- `run_report_source`: `if not fname_trans.fpath.exists():` log
"No coregistration found, skipping source space report." and
`return report` unchanged; otherwise render BEM, alignment, covariance
and inverse solutions (raising if those inputs are unreadable) and
append the source section. -/
def runReportSource (a : SubjectArtifacts) (doc : List SubjSection) :
    Except RunError (List SubjSection) :=
  if a.transPresent then
    if a.sourceOk then .ok (doc ++ [SubjSection.source])
    else .error .artifactMissing
  else .ok doc

/-- `add_system_info` together with the configuration-file block: appends
the configuration code section and the system-information section. -/
def addSystemInfo (doc : List SubjSection) : List SubjSection :=
  doc ++ [SubjSection.configFile, SubjSection.sysInfo]

/-- The three content stages of `run_report`, in their fixed order,
threading the document. -/
def contentStages (cfg : SubjectCfg) (a : SubjectArtifacts) :
    Except RunError (List SubjSection) := do
  let doc ← runReportPreprocessing a []
  let doc ← runReportSensor cfg a doc
  runReportSource a doc

/-- `run_report`: empty report, then preprocessing → sensor → source,
then `add_system_info(report)`, then `report.save(...)`.  The returned
document is exactly what gets saved. -/
def runReport (cfg : SubjectCfg) (a : SubjectArtifacts) :
    Except RunError (List SubjSection) := do
  let doc ← contentStages cfg a
  .ok (addSystemInfo doc)

/-- The persisted subject report: `report.save` runs only after all
stages succeeded, so an exception anywhere earlier means nothing is
persisted for this subject/session. -/
def savedSubjectReport (cfg : SubjectCfg) (a : SubjectArtifacts) :
    Option (List SubjSection) :=
  (runReport cfg a).toOption

/-! ### Grand-average report assembly (`run_report_average`,
`add_decoding_grand_average`) -/

/-- The content items the grand-average report can contain. -/
inductive GavgItem where
  | eventCounts
  | evokedFig (condition : String)
  | fullEpochsDecodingFig
  | tbtScoresFig (contrast : Contrast)
  | tbtTValuesFig (contrast : Contrast)
  | timeGenFig (contrast : Contrast)
  | stcFig (condition : String)
  | configFile
  | sysInfo
deriving DecidableEq, Repr

/-- Configuration fields consulted by the grand-average flow;
`nSubjects` is `len(get_subjects(cfg))`. -/
structure GavgCfg where
  decode : Bool
  decodingContrasts : List Contrast
  nSubjects : ℕ
  timeGeneralization : Bool
  conditions : List String

/-- Which stored artifacts exist for the synthetic `average` subject:
the evoked file read by `mne.read_evokeds`, the per-contrast full-epochs
decoding `.mat` files, the per-contrast time-by-time decoding `.mat`
files, and the morphed source estimates per condition. -/
structure GavgStore where
  evokedOk : Bool
  fullEpochsPresent : Contrast → Bool
  tbtPresent : Contrast → Bool
  stcPresent : String → Bool

/-- The items the time-by-time decoding block of
`add_decoding_grand_average` adds for one contrast: the score figure is
added (and closed) only under `if len(get_subjects(cfg)) > 1:`, the
t-value figure is created and added under a second identical guard, and
the time-generalization figure under
`if cfg.decoding_time_generalization:`. -/
def tbtContrastItems (nSubjects : ℕ) (timeGeneralization : Bool)
    (c : Contrast) : List GavgItem :=
  (if 1 < nSubjects then [GavgItem.tbtScoresFig c] else []) ++
  (if 1 < nSubjects then [GavgItem.tbtTValuesFig c] else []) ++
  (if timeGeneralization then [GavgItem.timeGenFig c] else [])

/-- The full-epochs loop of `add_decoding_grand_average`: for each
contrast, `loadmat(fname_decoding)` — which raises on the first missing
artifact — before any figure is produced. -/
def loadFullEpochsScores (st : GavgStore) : List Contrast → Except RunError Unit
  | [] => .ok ()
  | c :: rest =>
      if st.fullEpochsPresent c then loadFullEpochsScores st rest
      else .error .artifactMissing

/-- The time-by-time loop of `add_decoding_grand_average`: per contrast,
load the stored artifact (raising if missing) and append that contrast's
figures. -/
def tbtContrastLoop (st : GavgStore) (nSubjects : ℕ)
    (timeGeneralization : Bool) : List Contrast → Except RunError (List GavgItem)
  | [] => .ok []
  | c :: rest =>
      if st.tbtPresent c then do
        let items ← tbtContrastLoop st nSubjects timeGeneralization rest
        .ok (tbtContrastItems nSubjects timeGeneralization c ++ items)
      else .error .artifactMissing

/-- `add_decoding_grand_average`: load every contrast's full-epochs
scores, add the combined full-epochs figure, then run the time-by-time
loop. -/
def addDecodingGrandAverage (cfg : GavgCfg) (st : GavgStore) :
    Except RunError (List GavgItem) := do
  let _ ← loadFullEpochsScores st cfg.decodingContrasts
  let tbtItems ← tbtContrastLoop st cfg.nSubjects cfg.timeGeneralization
    cfg.decodingContrasts
  .ok (GavgItem.fullEpochsDecodingFig :: tbtItems)

/-- `run_report_average`: read the evokeds (raising if absent), add the
event-count table and per-condition evoked figures, then — under
`if cfg.decode and cfg.decoding_contrasts:` — the decoding sections,
then the morphed source estimates whose files exist, then
`add_system_info`, and finally `report.save`. -/
def runReportAverage (cfg : GavgCfg) (st : GavgStore) :
    Except RunError (List GavgItem) := do
  let _ ← if st.evokedOk then Except.ok () else Except.error RunError.artifactMissing
  let decItems ←
    if cfg.decode && !cfg.decodingContrasts.isEmpty then
      addDecodingGrandAverage cfg st
    else .ok []
  .ok (GavgItem.eventCounts :: cfg.conditions.map GavgItem.evokedFig ++ decItems
    ++ (cfg.conditions.filter st.stcPresent).map GavgItem.stcFig
    ++ [GavgItem.configFile, GavgItem.sysInfo])

/-- The persisted grand-average report: `report.save` is the last step of
`run_report_average`, so an exception during assembly persists nothing. -/
def persistedAverageReport (cfg : GavgCfg) (st : GavgStore) :
    Option (List GavgItem) :=
  (runReportAverage cfg st).toOption

/-! ### The batch driver (`main`) -/

/-- Configuration consulted by `main`. -/
structure MainCfg where
  taskIsRest : Bool
  subjects : List String
  sessions : List (Option String)

/-- One report-producing invocation made by `main`. -/
inductive ReportRun where
  | subjectRun (subject : String) (session : Option String)
  | averageRun (session : Option String)
deriving DecidableEq, Repr

/-- `main`: runs `run_report` over
`itertools.product(get_subjects(config), get_sessions(config))`, saves
the logs, and then — unless `config.task_is_rest`, in which case it logs
"… skipping "average" report for "rest" task." and returns — runs
`run_report_average` once per session. -/
def mainReportRuns (cfg : MainCfg) : List ReportRun :=
  (cfg.subjects.map fun su => cfg.sessions.map (ReportRun.subjectRun su)).flatten
    ++ (if cfg.taskIsRest then [] else cfg.sessions.map ReportRun.averageRun)

/-! ### Figure lifecycle in the sensor-stage TFR block -/

/-- The matplotlib figures created by the TFR block of
`run_report_sensor` for one condition. -/
inductive SensorFig where
  | tfrPower (condition : String)
  | tfrItc (condition : String)
deriving DecidableEq, Repr

/-- Figure lifecycle events: a figure being embedded via
`report.add_figure` and a figure being released via `plt.close`. -/
inductive FigEvent where
  | figAdded (f : SensorFig)
  | figClosed (f : SensorFig)
deriving DecidableEq, Repr

/-- The event trace of one iteration of the TFR loop of
`run_report_sensor`: add `fig_power`; `plt.close(fig_power)`; add
`fig_itc`; then the source again executes `plt.close(fig_power)` (lines
1010–1031 — the second close call names `fig_power`, not `fig_itc`). -/
def tfrConditionEvents (condition : String) : List FigEvent :=
  [FigEvent.figAdded (SensorFig.tfrPower condition),
   FigEvent.figClosed (SensorFig.tfrPower condition),
   FigEvent.figAdded (SensorFig.tfrItc condition),
   FigEvent.figClosed (SensorFig.tfrPower condition)]

/-- The event trace of the whole TFR block over the configured
time-frequency conditions. -/
def tfrSectionEvents (conditions : List String) : List FigEvent :=
  (conditions.map tfrConditionEvents).flatten

/-! ### The upstream statistics producers (not under `src/`) -/

/-- Modelled from the spec: the Cluster Permutation Engine and the
upstream step storing its output run in the time-by-time decoding
aggregation script, which is not part of `src/` — the report script only
reads the stored `clusters` entries.  Spec §4.3: the engine "applies
only when `N > 1` (a permutation test over subjects is undefined for one
sample)", so the stored artifact carries the engine's clusters only when
more than one subject contributed; for `N == 1` the engine is never
invoked and no cluster data is attached.  The engine itself is a
parameter, so non-invocation is expressible as independence from it. -/
def upstreamClusterData (nSubjects : ℕ)
    (engine : Unit → List PermCluster) : List PermCluster :=
  if 1 < nSubjects then engine () else []

/-- A per-subject decoding score curve (spec data model §3): a time axis
and the score value at each time point. -/
structure ScoreCurve where
  times : List ℚ
  values : List ℚ
deriving DecidableEq, Repr

/-- Group-level statistics derived from `N` subject curves (spec data
model §3).  `standard_error_sq` holds the square of the bootstrap
standard error (the empirical variance of the resampled means — the
square root needed for the standard error itself does not exist in ℚ);
the SE/CI fields are `none` when `n_subjects == 1`. -/
structure GroupStatistic where
  mean : List ℚ
  standard_error_sq : Option (List ℚ)
  ci_lower : Option (List ℚ)
  ci_upper : Option (List ℚ)
  n_subjects : ℕ
deriving DecidableEq, Repr

/-- Aggregation error (spec §4.2): incompatible time axes or shapes. -/
inductive AggError where
  | shapeMismatch
deriving DecidableEq, Repr

/-- Elementwise arithmetic mean of a list of value vectors, evaluated at
the `T` time points. -/
def elementwiseMean (vs : List (List ℚ)) (T : ℕ) : List ℚ :=
  (List.range T).map fun t => (vs.map fun v => v.getD t 0).sum / (vs.length : ℚ)

/-- Arithmetic mean of a list of rationals. -/
def listMean (xs : List ℚ) : ℚ := xs.sum / (xs.length : ℚ)

/-- Empirical variance of a list of rationals. -/
def listVariance (xs : List ℚ) : ℚ :=
  listMean (xs.map fun x => (x - listMean xs) ^ 2)

/-- Nearest-rank percentile of a list of rationals at quantile `q`. -/
def percentileAt (q : ℚ) (xs : List ℚ) : ℚ :=
  (xs.insertionSort (· ≤ ·)).getD (⌊q * (xs.length : ℚ)⌋).toNat 0

/-- The subject indices sampled (with replacement) for resample `r` by
the seeded generator `rng`. -/
def resampleIndices (rng : ℕ → ℕ) (r N : ℕ) : List ℕ :=
  (List.range N).map fun k => rng (r * N + k) % N

/-- The `B` bootstrap resampled mean curves over `T` time points. -/
def bootstrapMeans (B : ℕ) (rng : ℕ → ℕ) (vs : List (List ℚ)) (T : ℕ) :
    List (List ℚ) :=
  (List.range B).map fun r =>
    elementwiseMean ((resampleIndices rng r vs.length).map fun i => vs.getD i []) T

/-- The per-time-point empirical variance of the `B` resampled mean
curves: the square of the bootstrap standard error. -/
def bootstrapSESq (B : ℕ) (rng : ℕ → ℕ) (vs : List (List ℚ)) (T : ℕ) :
    List ℚ :=
  (List.range T).map fun t =>
    listVariance ((bootstrapMeans B rng vs T).map fun m => m.getD t 0)

/-- The per-time-point `q`-quantile of the `B` resampled mean curves. -/
def bootstrapCI (q : ℚ) (B : ℕ) (rng : ℕ → ℕ) (vs : List (List ℚ))
    (T : ℕ) : List ℚ :=
  (List.range T).map fun t =>
    percentileAt q ((bootstrapMeans B rng vs T).map fun m => m.getD t 0)

/-- Modelled from the spec: the Grand-Average Aggregator (spec §4.2)
runs in the upstream decoding aggregation script, which is not part of
`src/`.  Per the spec: the precondition that all curves share identical
time axes is checked and its violation is a fatal `ShapeMismatch`; the
mean curve is the elementwise arithmetic mean across subjects; SE and
the two-sided CI come from `B` bootstrap resamples of size `N` drawn
with replacement by a seeded generator (the empirical variance and the
2.5th/97.5th percentiles of the resampled means, per time point); for
`N == 1` the SE/CI fields are not computed. -/
def grandAverageAggregator (B : ℕ) (rng : ℕ → ℕ)
    (curves : List ScoreCurve) : Except AggError GroupStatistic :=
  match curves with
  | [] => .error .shapeMismatch
  | c0 :: rest =>
      if (c0 :: rest).all fun c =>
          decide (c.times = c0.times) && decide (c.values.length = c0.times.length)
      then
        let vs := (c0 :: rest).map ScoreCurve.values
        let T := c0.values.length
        if rest.isEmpty then
          .ok ⟨elementwiseMean vs T, none, none, none, 1⟩
        else
          .ok ⟨elementwiseMean vs T,
            some (bootstrapSESq B rng vs T),
            some (bootstrapCI (25/1000) B rng vs T),
            some (bootstrapCI (975/1000) B rng vs T),
            vs.length⟩
      else .error .shapeMismatch

/-! ## Claim theorems -/

/-- C3: In the grand-average time-by-time decoding figure, a permutation
cluster is highlighted if and only if its p-value is strictly below the
configured significance threshold `cfg.cluster_permutation_p_threshold`;
a cluster whose p-value is greater than or equal to the threshold is
never highlighted.  This holds in both shape regimes of the plotting
routine. -/
theorem cluster_highlighted_iff_p_below_threshold
    (T : ℕ) (pThreshold : ℚ) (d : GavgVecData T) (dm : GavgMatData T)
    (c : PermCluster) :
    (c ∈ (plotGavgScoresVec pThreshold d).highlighted ↔
      c ∈ d.clusters ∧ c.pValue < pThreshold) ∧
    (c ∈ (plotGavgScoresMat pThreshold dm).highlighted ↔
      c ∈ dm.clusters ∧ c.pValue < pThreshold) := by
  constructor <;>
    simp [plotGavgScoresVec, plotGavgScoresMat, significantClusters,
      List.mem_filter, not_le]

/-- C10: when time generalization is enabled, both the single-subject and
the grand-average time-course decoding plots use only the diagonal of the
score matrices for their mean, min/max, standard-error and
confidence-interval curves: every plotted curve is a function of the
diagonal entries alone, and two inputs agreeing on all diagonal entries
yield identical plots regardless of their off-diagonal entries. -/
theorem timegen_plots_use_diagonal_only
    {F T : ℕ} (s s2 : Fin F → Fin T → Fin T → ℚ) (pThreshold : ℚ)
    (d d2 : GavgMatData T)
    (hs : ∀ f t, s f t t = s2 f t t)
    (hmean : ∀ t, d.mean t t = d2.mean t t)
    (hse : ∀ t, d.mean_se t t = d2.mean_se t t)
    (hcil : ∀ t, d.mean_ci_lower t t = d2.mean_ci_lower t t)
    (hciu : ∀ t, d.mean_ci_upper t t = d2.mean_ci_upper t t)
    (hcl : d.clusters = d2.clusters) :
    ((plotTimeByTimeScoresTimeGen s).1 = fun t => (∑ f, s f t t) / (F : ℚ)) ∧
    ((plotTimeByTimeScoresTimeGen s).2.1
        = fun t => listMax ((List.finRange F).map fun f => s f t t)) ∧
    ((plotTimeByTimeScoresTimeGen s).2.2
        = fun t => listMin ((List.finRange F).map fun f => s f t t)) ∧
    plotTimeByTimeScoresTimeGen s = plotTimeByTimeScoresTimeGen s2 ∧
    ((plotGavgScoresMat pThreshold d).meanCurve = fun t => d.mean t t) ∧
    ((plotGavgScoresMat pThreshold d).seLower
        = fun t => d.mean t t - d.mean_se t t) ∧
    ((plotGavgScoresMat pThreshold d).seUpper
        = fun t => d.mean t t + d.mean_se t t) ∧
    ((plotGavgScoresMat pThreshold d).ciLower = fun t => d.mean_ci_lower t t) ∧
    ((plotGavgScoresMat pThreshold d).ciUpper = fun t => d.mean_ci_upper t t) ∧
    plotGavgScoresMat pThreshold d = plotGavgScoresMat pThreshold d2 := by
  refine ⟨rfl, rfl, rfl, ?_, rfl, rfl, rfl, rfl, rfl, ?_⟩
  · unfold plotTimeByTimeScoresTimeGen npDiag npMeanAxis0 npMaxAxis0 npMinAxis0
    refine Prod.ext ?_ (Prod.ext ?_ ?_) <;> funext t
    · exact congrArg (· / (F : ℚ)) (Finset.sum_congr rfl fun f _ => hs f t)
    · exact congrArg listMax (List.map_congr_left fun f _ => hs f t)
    · exact congrArg listMin (List.map_congr_left fun f _ => hs f t)
  · have h1 : npDiag d.mean_ci_lower = npDiag d2.mean_ci_lower := funext hcil
    have h2 : npDiag d.mean_ci_upper = npDiag d2.mean_ci_upper := funext hciu
    have h3 : npDiag d.mean = npDiag d2.mean := funext hmean
    have h4 : npDiag (matSub d.mean d.mean_se)
        = npDiag (matSub d2.mean d2.mean_se) := by
      funext t
      show d.mean t t - d.mean_se t t = d2.mean t t - d2.mean_se t t
      rw [hmean t, hse t]
    have h5 : npDiag (matAdd d.mean d.mean_se)
        = npDiag (matAdd d2.mean d2.mean_se) := by
      funext t
      show d.mean t t + d.mean_se t t = d2.mean t t + d2.mean_se t t
      rw [hmean t, hse t]
    simp only [plotGavgScoresMat, hcl, h1, h2, h3, h4, h5]

/-- C10 witness: two concrete 1-fold, 2-time-point score arrays and two
concrete stored data sets that agree on their diagonals but differ
off-diagonal produce identical plots. -/
theorem timegen_plots_use_diagonal_only_witness :
    plotTimeByTimeScoresTimeGen (fun (_ : Fin 1) (i j : Fin 2) => if i = j then (1 : ℚ) else 5)
      = plotTimeByTimeScoresTimeGen (fun (_ : Fin 1) (i j : Fin 2) => if i = j then (1 : ℚ) else 7) ∧
    plotGavgScoresMat (1/20)
        (⟨fun _ => 0, fun i j => if i = j then (1 : ℚ) else 2, fun _ _ => 0,
          fun _ _ => 0, fun _ _ => 0, []⟩ : GavgMatData 2)
      = plotGavgScoresMat (1/20)
        (⟨fun _ => 0, fun i j => if i = j then (1 : ℚ) else 3, fun _ _ => 0,
          fun _ _ => 0, fun _ _ => 0, []⟩ : GavgMatData 2) := by
  have h := timegen_plots_use_diagonal_only
    (fun (_ : Fin 1) (i j : Fin 2) => if i = j then (1 : ℚ) else 5)
    (fun (_ : Fin 1) (i j : Fin 2) => if i = j then (1 : ℚ) else 7) (1/20)
    (⟨fun _ => 0, fun i j => if i = j then (1 : ℚ) else 2, fun _ _ => 0,
      fun _ _ => 0, fun _ _ => 0, []⟩ : GavgMatData 2)
    (⟨fun _ => 0, fun i j => if i = j then (1 : ℚ) else 3, fun _ _ => 0,
      fun _ _ => 0, fun _ _ => 0, []⟩ : GavgMatData 2)
    (by decide) (by decide) (by decide) (by decide) (by decide) rfl
  exact ⟨h.2.2.2.1, h.2.2.2.2.2.2.2.2.2⟩

/-- C1 counterexample: in a grand-average run with exactly one subject
(`len(get_subjects(cfg)) == 1`) the time-by-time decoding score figure is
not added to the report at all — the persisted document of a concrete
one-subject run contains no `tbtScoresFig` item, so the grand-average
decoding section does not render a mean-only score curve. -/
theorem single_subject_scores_fig_not_rendered_cex :
    GavgItem.tbtScoresFig ("A", "B") ∉ tbtContrastItems 1 false ("A", "B") ∧
    persistedAverageReport ⟨true, [("A", "B")], 1, false, ["A"]⟩
        ⟨true, fun _ => true, fun _ => true, fun _ => false⟩
      = some [GavgItem.eventCounts, GavgItem.evokedFig "A",
          GavgItem.fullEpochsDecodingFig, GavgItem.configFile,
          GavgItem.sysInfo] := by
  exact ⟨by decide, by rfl⟩

/-- C1 (amended): for a grand-average run with exactly one subject, the
time-by-time decoding score figure and the t-value figure are not added
to the report at all — both adds are gated on `N > 1` — so the section
holds at most the time-generalization figure; and the plotting routine
never omits the uncertainty bands: it always draws the standard-error
curves and the confidence-interval band from the stored data. -/
theorem single_subject_tbt_section_amended (tg : Bool) (c : Contrast)
    (T : ℕ) (pThreshold : ℚ) (d : GavgVecData T) :
    tbtContrastItems 1 tg c = (if tg then [GavgItem.timeGenFig c] else []) ∧
    GavgItem.tbtScoresFig c ∉ tbtContrastItems 1 tg c ∧
    GavgItem.tbtTValuesFig c ∉ tbtContrastItems 1 tg c ∧
    (plotGavgScoresVec pThreshold d).seLower = (fun t => d.mean t - d.mean_se t) ∧
    (plotGavgScoresVec pThreshold d).seUpper = (fun t => d.mean t + d.mean_se t) ∧
    (plotGavgScoresVec pThreshold d).ciLower = d.mean_ci_lower ∧
    (plotGavgScoresVec pThreshold d).ciUpper = d.mean_ci_upper := by
  refine ⟨?_, ?_, ?_, rfl, rfl, rfl, rfl⟩ <;> cases tg <;> simp [tbtContrastItems]

/-- C4: for a grand-average run with exactly one subject the Cluster
Permutation Engine is never invoked — the stored cluster data is empty
and independent of the engine —, no t-value figure and no score figure
are added for any contrast, and the highlight pass of the score plot
highlights nothing. -/
theorem single_subject_no_cluster_permutation
    (engine engine2 : Unit → List PermCluster) (tg : Bool) (c : Contrast)
    (T : ℕ) (pThreshold : ℚ) (times mean se cil ciu : Fin T → ℚ) :
    upstreamClusterData 1 engine = [] ∧
    upstreamClusterData 1 engine = upstreamClusterData 1 engine2 ∧
    GavgItem.tbtTValuesFig c ∉ tbtContrastItems 1 tg c ∧
    GavgItem.tbtScoresFig c ∉ tbtContrastItems 1 tg c ∧
    (plotGavgScoresVec pThreshold
        ⟨times, mean, se, cil, ciu, upstreamClusterData 1 engine⟩).highlighted = [] ∧
    (plotGavgScoresVec pThreshold
        ⟨times, mean, se, cil, ciu, upstreamClusterData 1 engine⟩).highlightSpans = [] := by
  refine ⟨rfl, rfl, ?_, ?_, rfl, rfl⟩ <;> cases tg <;> simp [tbtContrastItems]

/-- C5: when the coregistration (trans) artifact does not exist but the
other inputs are available, the source stage returns the document
unchanged, the run completes without raising, and the saved report still
contains the preprocessing and sensor sections. -/
theorem missing_trans_skips_source_run_succeeds
    (cfg : SubjectCfg) (a : SubjectArtifacts)
    (htrans : a.transPresent = false)
    (hraw : a.rawOk = true) (hsensor : a.sensorOk = true)
    (hdec : a.sensorDecodingOk = true) :
    (∀ doc, runReportSource a doc = .ok doc) ∧
    runReport cfg a
      = .ok [SubjSection.preprocessing, SubjSection.sensor,
          SubjSection.configFile, SubjSection.sysInfo] ∧
    savedSubjectReport cfg a
      = some [SubjSection.preprocessing, SubjSection.sensor,
          SubjSection.configFile, SubjSection.sysInfo] ∧
    SubjSection.preprocessing ∈ [SubjSection.preprocessing, SubjSection.sensor,
        SubjSection.configFile, SubjSection.sysInfo] ∧
    SubjSection.sensor ∈ [SubjSection.preprocessing, SubjSection.sensor,
        SubjSection.configFile, SubjSection.sysInfo] := by
  have hsrc : ∀ doc, runReportSource a doc = .ok doc := by
    intro doc
    simp [runReportSource, htrans]
  have hrun : runReport cfg a
      = .ok [SubjSection.preprocessing, SubjSection.sensor,
          SubjSection.configFile, SubjSection.sysInfo] := by
    by_cases h : (cfg.decode && !cfg.decodingContrasts.isEmpty) = true <;>
      simp [runReport, contentStages, runReportPreprocessing, runReportSensor,
        hsrc, addSystemInfo, hraw, hsensor, hdec, h] <;> rfl
  exact ⟨hsrc, hrun, by simp [savedSubjectReport, hrun, Except.toOption],
    by simp, by simp⟩

/-- C5 witness: a concrete run with every artifact present except the
coregistration file leaves the document unchanged through the source
stage. -/
theorem missing_trans_skips_source_run_succeeds_witness :
    runReportSource ⟨true, true, true, false, false⟩ [SubjSection.preprocessing]
      = .ok [SubjSection.preprocessing] :=
  (missing_trans_skips_source_run_succeeds ⟨true, [("A", "B")]⟩
    ⟨true, true, true, false, false⟩ rfl rfl rfl rfl).1 [SubjSection.preprocessing]

/-- C7: in every subject-level run that does not fail, after the three
content stages (preprocessing, sensor, source, in that fixed order), the
finalization step appending the configuration file and system
information always executes, and the saved document is exactly the
content stages' document followed by those two sections. -/
theorem finalization_always_before_save
    (cfg : SubjectCfg) (a : SubjectArtifacts) (doc : List SubjSection)
    (h : runReport cfg a = .ok doc) :
    ∃ content, contentStages cfg a = .ok content ∧
      doc = addSystemInfo content ∧
      doc = content ++ [SubjSection.configFile, SubjSection.sysInfo] ∧
      SubjSection.configFile ∈ doc ∧ SubjSection.sysInfo ∈ doc ∧
      savedSubjectReport cfg a = some doc := by
  cases hc : contentStages cfg a with
  | error e =>
      rw [runReport, hc] at h
      exact absurd h (by simp [Bind.bind, Except.bind])
  | ok content =>
      rw [runReport, hc] at h
      simp only [Bind.bind, Except.bind, Except.ok.injEq] at h
      subst h
      exact ⟨content, rfl, rfl, rfl, by simp [addSystemInfo],
        by simp [addSystemInfo], by simp [savedSubjectReport, runReport, hc,
          Bind.bind, Except.bind, Except.toOption]⟩

/-- C7 witness: a concrete fully-populated run saves the three content
sections followed by the configuration and system-information
sections. -/
theorem finalization_always_before_save_witness :
    ∃ content, contentStages ⟨false, []⟩ ⟨true, true, true, true, true⟩
        = .ok content ∧
      [SubjSection.preprocessing, SubjSection.sensor, SubjSection.source,
          SubjSection.configFile, SubjSection.sysInfo] = addSystemInfo content ∧
      [SubjSection.preprocessing, SubjSection.sensor, SubjSection.source,
          SubjSection.configFile, SubjSection.sysInfo]
        = content ++ [SubjSection.configFile, SubjSection.sysInfo] ∧
      SubjSection.configFile ∈ [SubjSection.preprocessing, SubjSection.sensor,
          SubjSection.source, SubjSection.configFile, SubjSection.sysInfo] ∧
      SubjSection.sysInfo ∈ [SubjSection.preprocessing, SubjSection.sensor,
          SubjSection.source, SubjSection.configFile, SubjSection.sysInfo] ∧
      savedSubjectReport ⟨false, []⟩ ⟨true, true, true, true, true⟩
        = some [SubjSection.preprocessing, SubjSection.sensor, SubjSection.source,
            SubjSection.configFile, SubjSection.sysInfo] :=
  finalization_always_before_save ⟨false, []⟩ ⟨true, true, true, true, true⟩
    [SubjSection.preprocessing, SubjSection.sensor, SubjSection.source,
      SubjSection.configFile, SubjSection.sysInfo] (by rfl)

/-- If some contrast's full-epochs decoding artifact is absent, the
full-epochs loading loop raises. -/
lemma loadFullEpochsScores_missing (st : GavgStore) (cs : List Contrast)
    (c : Contrast) (hc : c ∈ cs) (h : st.fullEpochsPresent c = false) :
    loadFullEpochsScores st cs = .error .artifactMissing := by
  induction cs with
  | nil => cases hc
  | cons a rest ih =>
      rw [loadFullEpochsScores]
      cases hp : st.fullEpochsPresent a with
      | false => simp
      | true =>
          simp only [hp, if_true]
          rcases List.mem_cons.mp hc with h1 | h1
          · subst h1
            rw [h] at hp
            cases hp
          · exact ih h1

/-- If some contrast's time-by-time decoding artifact is absent, the
time-by-time loop raises. -/
lemma tbtContrastLoop_missing (st : GavgStore) (n : ℕ) (tg : Bool)
    (cs : List Contrast) (c : Contrast) (hc : c ∈ cs)
    (h : st.tbtPresent c = false) :
    tbtContrastLoop st n tg cs = .error .artifactMissing := by
  induction cs with
  | nil => cases hc
  | cons a rest ih =>
      rw [tbtContrastLoop]
      cases hp : st.tbtPresent a with
      | false => simp
      | true =>
          simp only [hp, if_true]
          rcases List.mem_cons.mp hc with h1 | h1
          · subst h1
            rw [h] at hp
            cases hp
          · rw [Bind.bind, ih h1]
            rfl

/-- If any decoding artifact for some configured contrast is absent,
`add_decoding_grand_average` raises before returning. -/
lemma addDecodingGrandAverage_missing (cfg : GavgCfg) (st : GavgStore)
    (c : Contrast) (hc : c ∈ cfg.decodingContrasts)
    (h : st.fullEpochsPresent c = false ∨ st.tbtPresent c = false) :
    addDecodingGrandAverage cfg st = .error .artifactMissing := by
  rcases h with h | h
  · rw [addDecodingGrandAverage, Bind.bind,
      loadFullEpochsScores_missing st _ c hc h]
    rfl
  · rw [addDecodingGrandAverage, Bind.bind]
    cases hl : loadFullEpochsScores st cfg.decodingContrasts with
    | error e => cases e; rfl
    | ok u =>
        show (do
          let tbtItems ← tbtContrastLoop st cfg.nSubjects cfg.timeGeneralization
            cfg.decodingContrasts
          Except.ok (GavgItem.fullEpochsDecodingFig :: tbtItems)) = _
        rw [Bind.bind, tbtContrastLoop_missing st _ _ _ c hc h]
        rfl

/-- C2: if any required decoding score artifact is missing when the
grand-average report phase runs (with decoding enabled and that contrast
configured), the phase fails with an artifact-missing error and no
grand-average report is persisted: a partial grand average is never
emitted. -/
theorem gavg_missing_artifact_aborts_unsaved
    (cfg : GavgCfg) (st : GavgStore) (c : Contrast)
    (hdecode : cfg.decode = true)
    (hc : c ∈ cfg.decodingContrasts)
    (hmiss : st.fullEpochsPresent c = false ∨ st.tbtPresent c = false) :
    runReportAverage cfg st = .error .artifactMissing ∧
    persistedAverageReport cfg st = none := by
  have hne : cfg.decodingContrasts.isEmpty = false := by
    cases hcs : cfg.decodingContrasts with
    | nil => rw [hcs] at hc; cases hc
    | cons x xs => rfl
  have hgate : (cfg.decode && !cfg.decodingContrasts.isEmpty) = true := by
    rw [hdecode, hne]
    rfl
  have hrun : runReportAverage cfg st = .error .artifactMissing := by
    rw [runReportAverage]
    cases he : st.evokedOk with
    | false => rfl
    | true =>
        show (do
          let decItems ← if cfg.decode && !cfg.decodingContrasts.isEmpty then
              addDecodingGrandAverage cfg st
            else .ok []
          Except.ok (GavgItem.eventCounts :: cfg.conditions.map GavgItem.evokedFig
            ++ decItems ++ (cfg.conditions.filter st.stcPresent).map GavgItem.stcFig
            ++ [GavgItem.configFile, GavgItem.sysInfo])) = _
        rw [Bind.bind, if_pos hgate,
          addDecodingGrandAverage_missing cfg st c hc hmiss]
        rfl
  exact ⟨hrun, by rw [persistedAverageReport, hrun]; rfl⟩

/-- C2 witness: with two configured contrasts and the time-by-time
artifact of the second one absent, the concrete grand-average phase
fails and persists nothing. -/
theorem gavg_missing_artifact_aborts_unsaved_witness :
    runReportAverage ⟨true, [("A", "B"), ("C", "D")], 5, false, ["A"]⟩
        ⟨true, fun _ => true, fun c => ! decide (c = ("C", "D")), fun _ => false⟩
      = .error .artifactMissing ∧
    persistedAverageReport ⟨true, [("A", "B"), ("C", "D")], 5, false, ["A"]⟩
        ⟨true, fun _ => true, fun c => ! decide (c = ("C", "D")), fun _ => false⟩
      = none :=
  gavg_missing_artifact_aborts_unsaved _ _ ("C", "D") rfl (by decide)
    (Or.inr (by decide))

/-- C9: if the configured task is a resting-state task, the batch driver
skips the grand-average report phase entirely: every report-producing
invocation is a subject-level one, and no grand-average report run
happens for any session. -/
theorem rest_task_skips_average_reports (cfg : MainCfg)
    (h : cfg.taskIsRest = true) :
    mainReportRuns cfg
      = (cfg.subjects.map fun su =>
          cfg.sessions.map (ReportRun.subjectRun su)).flatten ∧
    ∀ s, ReportRun.averageRun s ∉ mainReportRuns cfg := by
  constructor
  · simp [mainReportRuns, h]
  · intro s hmem
    simp only [mainReportRuns, h, if_true, List.append_nil,
      List.mem_flatten, List.mem_map] at hmem
    obtain ⟨l, ⟨su, hsu, rfl⟩, hmem2⟩ := hmem
    simp only [List.mem_map] at hmem2
    obtain ⟨ses, hses, heq⟩ := hmem2
    cases heq

/-- C9 witness: a concrete resting-state configuration produces no
grand-average run. -/
theorem rest_task_skips_average_reports_witness :
    ReportRun.averageRun none ∉ mainReportRuns ⟨true, ["01"], [none]⟩ :=
  (rest_task_skips_average_reports ⟨true, ["01"], [none]⟩ rfl).2 none

/-- C6 fails on the code: in the TFR block of `run_report_sensor`
(source lines 1010–1031) the ITC figure is embedded with
`report.add_figure`, but the `plt.close` call that follows names
`fig_power` again instead of `fig_itc`, so the embedded ITC figure is
never closed while the power figure is closed twice. -/
theorem tfr_itc_figure_added_but_never_closed :
    FigEvent.figAdded (SensorFig.tfrItc "alpha") ∈ tfrSectionEvents ["alpha"] ∧
    FigEvent.figClosed (SensorFig.tfrItc "alpha") ∉ tfrSectionEvents ["alpha"] ∧
    (tfrSectionEvents ["alpha"]).count
        (FigEvent.figClosed (SensorFig.tfrPower "alpha")) = 2 := by
  refine ⟨?_, ?_, ?_⟩ <;> decide

/-- C8: for every set of N ≥ 2 subject score curves sharing identical
time axes, the Grand-Average Aggregator succeeds and its mean curve
equals the exact elementwise arithmetic mean of the subject curves,
deterministically and independently of the bootstrap resample count and
of the seeded resampling generator. -/
theorem gavg_mean_exact_and_bootstrap_independent
    (B B2 : ℕ) (rng rng2 : ℕ → ℕ) (c0 : ScoreCurve) (rest : List ScoreCurve)
    (hN : rest ≠ [])
    (hshape : ∀ c ∈ c0 :: rest,
      c.times = c0.times ∧ c.values.length = c0.times.length) :
    ∃ gs gs2, grandAverageAggregator B rng (c0 :: rest) = .ok gs ∧
      grandAverageAggregator B2 rng2 (c0 :: rest) = .ok gs2 ∧
      gs.mean = elementwiseMean ((c0 :: rest).map ScoreCurve.values)
        c0.values.length ∧
      gs2.mean = gs.mean ∧
      gs.n_subjects = rest.length + 1 := by
  cases rest with
  | nil => exact absurd rfl hN
  | cons c1 rest2 =>
      have hall : ((c0 :: c1 :: rest2).all fun c =>
          decide (c.times = c0.times)
            && decide (c.values.length = c0.times.length)) = true := by
        rw [List.all_eq_true]
        intro c hcmem
        obtain ⟨h1, h2⟩ := hshape c hcmem
        simp [h1, h2]
      have hrun : ∀ (Bx : ℕ) (rngx : ℕ → ℕ),
          grandAverageAggregator Bx rngx (c0 :: c1 :: rest2)
            = .ok ⟨elementwiseMean ((c0 :: c1 :: rest2).map ScoreCurve.values)
                c0.values.length,
              some (bootstrapSESq Bx rngx
                ((c0 :: c1 :: rest2).map ScoreCurve.values) c0.values.length),
              some (bootstrapCI (25/1000) Bx rngx
                ((c0 :: c1 :: rest2).map ScoreCurve.values) c0.values.length),
              some (bootstrapCI (975/1000) Bx rngx
                ((c0 :: c1 :: rest2).map ScoreCurve.values) c0.values.length),
              ((c0 :: c1 :: rest2).map ScoreCurve.values).length⟩ := by
        intro Bx rngx
        rw [grandAverageAggregator]
        simp [hall]
      exact ⟨_, _, hrun B rng, hrun B2 rng2, rfl, rfl, by simp⟩

/-- C8 witness: two concrete subject curves on the same two-point time
axis, aggregated with different resample counts and generators, give the
same mean curve — the exact elementwise average. -/
theorem gavg_mean_exact_and_bootstrap_independent_witness :
    ∃ gs gs2,
      grandAverageAggregator 1 id
          [⟨[0, 1], [1/2, 3/4]⟩, ⟨[0, 1], [1/4, 1/4]⟩] = .ok gs ∧
      grandAverageAggregator 5 (fun n => n + 3)
          [⟨[0, 1], [1/2, 3/4]⟩, ⟨[0, 1], [1/4, 1/4]⟩] = .ok gs2 ∧
      gs.mean = elementwiseMean
        (([⟨[0, 1], [1/2, 3/4]⟩, ⟨[0, 1], [1/4, 1/4]⟩] :
            List ScoreCurve).map ScoreCurve.values)
        (ScoreCurve.values ⟨[0, 1], [1/2, 3/4]⟩).length ∧
      gs2.mean = gs.mean ∧
      gs.n_subjects = [(⟨[0, 1], [1/4, 1/4]⟩ : ScoreCurve)].length + 1 :=
  gavg_mean_exact_and_bootstrap_independent 1 5 id (fun n => n + 3)
    ⟨[0, 1], [1/2, 3/4]⟩ [⟨[0, 1], [1/4, 1/4]⟩] (by decide) (by decide)

end MakeReports
